import Mathlib

/-!
Shallow embedding of the workday-raas-typescript client library.

The repository is a thin client for the Workday Reports-as-a-Service API:
an auth client that caches an OAuth2 bearer token (src/lib/client.ts), a
request builder that accumulates query parameters and issues a GET in one
of three output formats (the WorkdayRequest class), an error taxonomy
(src/lib/error.ts), and an older variant of the same client
(src/wdsdk-ts/lib).  Pure functions are translated directly; the stateful
token cache becomes explicit state passing; network calls and the external
jwt-decode library become function parameters so that every claim can be
stated over all behaviours of the environment.
-/

deriving instance DecidableEq for Except

namespace Workday

/-! JavaScript string primitives used by the source.  JS `String.prototype.trim`
removes leading and trailing whitespace; `String.prototype.split` with a
one-character separator cuts the string at every occurrence of that character,
keeping empty pieces; `Array.prototype.join` interleaves a separator. -/

def jsWhitespaceChar (c : Char) : Bool :=
  c = ' ' || c = '\t' || c = '\n' || c = '\r' || c = '\x0b' || c = '\x0c' ||
  c = ' ' || c = '﻿'

def jsTrim (s : String) : String :=
  ⟨((s.data.dropWhile (jsWhitespaceChar ·)).reverse.dropWhile (jsWhitespaceChar ·)).reverse⟩

def splitCharAux (sep : Char) : List Char → List Char → List (List Char)
  | [], acc => [acc.reverse]
  | c :: cs, acc =>
    if c = sep then acc.reverse :: splitCharAux sep cs []
    else splitCharAux sep cs (c :: acc)

def jsSplit (sep : Char) (s : String) : List String :=
  (splitCharAux sep s.data []).map (fun cs => (⟨cs⟩ : String))

def joinWith (sep : String) : List String → String
  | [] => ""
  | [s] => s
  | s :: ss => s ++ sep ++ joinWith sep ss

/-! Error taxonomy (src/lib/error.ts).  The library defines a single class
InternalError; any other thrown value (TypeError from fetch, SyntaxError from
JSON parsing, ...) is foreign to the library and is modelled by its string
interpolation, which is what the wrapping code observes. -/

inductive JsError where
  | internalError (message : String)
  | foreign (shown : String)
deriving DecidableEq

def isGeneratedError : JsError → Bool
  | .internalError _ => true
  | .foreign _ => false

/-- String interpolation of a JS error value: an Error instance prints as
name plus message (the InternalError class keeps the default name Error);
a foreign value prints as whatever it prints as. -/
def JsError.display : JsError → String
  | .internalError m => "Error: " ++ m
  | .foreign s => s

/-! Model of the external jwt-decode library.  jwtDecode splits the token on
the dot character and requires a part at index 1 (the payload); base64url
decoding plus JSON parsing of that part is external-library behaviour and is
a parameter here, returning the decoded payload or failing. -/

structure JwtPayload where
  exp : Option Int
deriving DecidableEq

def jwtDecode (parsePayload : String → Option JwtPayload) (token : String) :
    Except String JwtPayload :=
  match (jsSplit '.' token)[1]? with
  | none => .error "Invalid token specified: missing part #2"
  | some part =>
    match parsePayload part with
    | none => .error "Invalid token specified: the payload could not be decoded"
    | some p => .ok p

/-! src/lib/client.ts -/

/-- Translation of isTokenExpired (src/lib/client.ts lines 17-27).
now stands for Date.now(), current epoch time in milliseconds. -/
def isTokenExpired (parsePayload : String → Option JwtPayload) (now : Int)
    (token : String) : Except JsError Bool :=
  match jwtDecode parsePayload token with
  | .error err =>
    .error (.internalError ("The format of the token was invalid: " ++ err ++ "."))
  | .ok payload =>
    match payload.exp with
    | none => .ok true
    | some e => .ok (decide (e * 1000 ≤ now))

/-- State of a RaasClient: the cached token field plus a count of the network
calls made to the auth endpoint, which stands for the call-count spy of the
tests. -/
structure AuthState where
  token : Option String
  authCalls : Nat
deriving DecidableEq

/-- The refresh step inside auth: this.token = await this.getToken().
refresh is the outcome the getToken call would have; a successful call
stores the new token and counts one network call to the auth endpoint. -/
def authRefresh (refresh : Except JsError String) (s : AuthState) :
    Except JsError (String × AuthState) :=
  match refresh with
  | .error e => .error e
  | .ok tok => .ok (tok, { token := some tok, authCalls := s.authCalls + 1 })

/-- Translation of RaasClient.auth (src/lib/client.ts lines 50-56).  The
JS guard is (not this.token or isTokenExpired(this.token)): an undefined or
empty-string token is falsy and triggers a refresh without consulting
isTokenExpired; otherwise isTokenExpired runs and may throw. -/
def auth (parsePayload : String → Option JwtPayload) (now : Int)
    (refresh : Except JsError String) (s : AuthState) :
    Except JsError (String × AuthState) :=
  match s.token with
  | none => authRefresh refresh s
  | some t =>
    if t = "" then authRefresh refresh s
    else
      match isTokenExpired parsePayload now t with
      | .error e => .error e
      | .ok true => authRefresh refresh s
      | .ok false => .ok (t, s)

/-- Outcome of the fetch to the auth endpoint, as RaasClient.getToken
observes it: the ok flag, the body text (read for the error message), and
the result of parsing the body as JSON, namely the access_token field of the
parsed object (absent field gives none) or a parse failure shown as the
thrown SyntaxError. -/
structure AuthResponse where
  ok : Bool
  text : String
  json : Except String (Option String)
deriving DecidableEq

/-- The try block of RaasClient.getToken (src/lib/client.ts lines 69-87).
The fetchResult parameter is the outcome of the fetch call itself: a thrown
transport error (shown by its interpolation) or a response.  The JS guard
(not token) is true for an absent access_token field and for an empty
string. -/
def getTokenTry (fetchResult : Except String AuthResponse) : Except JsError String :=
  match fetchResult with
  | .error shown => .error (.foreign shown)
  | .ok res =>
    if !res.ok then
      .error (.internalError
        ("An error occured during the auth request to Workday: " ++ res.text ++ "."))
    else
      match res.json with
      | .error shown => .error (.foreign shown)
      | .ok accessToken =>
        match accessToken with
        | none =>
          .error (.internalError
            "An unexpected response was received from Workday.  access_token was not included")
        | some tok =>
          if tok = "" then
            .error (.internalError
              "An unexpected response was received from Workday.  access_token was not included")
          else .ok tok

/-- The catch handler of RaasClient.getToken (src/lib/client.ts lines 88-93):
wrap the error unless it is already a generated InternalError. -/
def authCatch (e : JsError) : JsError :=
  if isGeneratedError e then e
  else .internalError
    ("An error occured during the auth request to Workday: " ++ e.display ++ ".")

/-- Translation of RaasClient.getToken (src/lib/client.ts lines 58-94). -/
def getToken (fetchResult : Except String AuthResponse) : Except JsError String :=
  match getTokenTry fetchResult with
  | .ok tok => .ok tok
  | .error e => .error (authCatch e)

/-! Model of the WHATWG URLSearchParams serializer used by URL.toString.
Each key and value is serialized with the application/x-www-form-urlencoded
escaping: ASCII alphanumerics and the characters star, minus, dot and
underscore stay, a space becomes a plus, every other byte of the UTF-8
encoding becomes a percent escape with uppercase hex digits. -/

def hexDigit (n : Nat) : Char :=
  if n < 10 then Char.ofNat (48 + n) else Char.ofNat (55 + n)

def percentByte (b : Nat) : String :=
  ⟨['%', hexDigit (b / 16), hexDigit (b % 16)]⟩

def urlencodedSafe (b : Nat) : Bool :=
  (48 ≤ b && b ≤ 57) || (65 ≤ b && b ≤ 90) || (97 ≤ b && b ≤ 122) ||
  b = 42 || b = 45 || b = 46 || b = 95

def utf8Bytes (c : Char) : List Nat :=
  let n := c.toNat
  if n < 128 then [n]
  else if n < 2048 then [192 + n / 64, 128 + n % 64]
  else if n < 65536 then [224 + n / 4096, 128 + n / 64 % 64, 128 + n % 64]
  else [240 + n / 262144, 128 + n / 4096 % 64, 128 + n / 64 % 64, 128 + n % 64]

def encodeByte (b : Nat) : String :=
  if urlencodedSafe b then ⟨[Char.ofNat b]⟩
  else if b = 32 then "+"
  else percentByte b

def urlencode (s : String) : String :=
  String.join ((s.data.flatMap utf8Bytes).map encodeByte)

def serializeParams (params : List (String × String)) : String :=
  joinWith "&" (params.map (fun p => urlencode p.1 ++ "=" ++ urlencode p.2))

/-- Serialization of a URL object: the part before the query, then, when the
search parameter list is nonempty, a question mark and the serialized
parameters.  URL.toString emits no question mark once searchParams is
empty. -/
def urlToString (base : String) (params : List (String × String)) : String :=
  if params.isEmpty then base else base ++ "?" ++ serializeParams params

def startsWithChars : List Char → List Char → Bool
  | [], _ => true
  | _ :: _, [] => false
  | p :: ps, c :: cs => p = c && startsWithChars ps cs

def takeUntilSlash : List Char → List Char × List Char
  | [] => ([], [])
  | c :: cs =>
    if c = '/' then ([], c :: cs)
    else
      let r := takeUntilSlash cs
      (c :: r.1, r.2)

/-- Model of the WHATWG URL constructor, restricted to the inputs the claims
exercise: absolute http or https URLs with a lowercase scheme and no
userinfo, port, query or fragment.  The constructor lowercases the host and
serializes an empty path as a single slash; any other input is outside the
modelled fragment and is treated as a construction failure. -/
def parseURL (s : String) : Option String :=
  let cs := s.data
  let readHost : String → List Char → Option String := fun scheme rest =>
    let hp := takeUntilSlash rest
    if hp.1.isEmpty || (hp.1 ++ hp.2).any (fun c => c = '?' || c = '#') then none
    else
      some (scheme ++ (⟨hp.1.map Char.toLower⟩ : String) ++
        (if hp.2.isEmpty then "/" else (⟨hp.2⟩ : String)))
  if startsWithChars "https://".data cs then readHost "https://" (cs.drop 8)
  else if startsWithChars "http://".data cs then readHost "http://" (cs.drop 7)
  else none

/-! The WorkdayRequest builder (the request module, src/unnamed/part_000).
The builder owns a URL object: the part before the query plus the ordered
multimap of search parameters.  The authRequest callback and the network are
parameters of the terminal methods. -/

structure WorkdayRequest where
  base : String
  params : List (String × String)
deriving DecidableEq

/-- Translation of the WorkdayRequest constructor: parse the endpoint with
the URL constructor, wrapping a parse failure into an InternalError. -/
def WorkdayRequest.create (endpoint : String) : Except JsError WorkdayRequest :=
  match parseURL endpoint with
  | some base => .ok { base := base, params := [] }
  | none =>
    .error (.internalError
      ("An error occured when creating a request for Workday: TypeError: Invalid URL: " ++
        endpoint ++ "."))

/-- The value argument of WorkdayRequest.param: a single string or a list. -/
inductive ParamValue where
  | str (s : String)
  | list (vals : List String)

/-- Translation of formatQueryParams (src/unnamed/part_000 lines 10-15):
a single string passes through; a list is mapped with trim, split on the
space character, join with underscore, and then joined with an exclamation
mark. -/
def formatQueryParams : ParamValue → String
  | .str s => s
  | .list vals => joinWith "!" (vals.map (fun v => joinWith "_" (jsSplit ' ' (jsTrim v))))

/-- Translation of WorkdayRequest.param (src/unnamed/part_000 lines 73-81):
searchParams.append adds the formatted pair at the end of the multimap. -/
def WorkdayRequest.param (r : WorkdayRequest) (key : String) (val : ParamValue) :
    WorkdayRequest :=
  { r with params := r.params ++ [(key, formatQueryParams val)] }

/-- searchParams.delete removes every entry whose key matches. -/
def deleteParam (params : List (String × String)) (key : String) :
    List (String × String) :=
  params.filter (fun p => p.1 ≠ key)

/-- Response of the report endpoint as the builder observes it. -/
structure NetResponse where
  ok : Bool
  status : Nat
  text : String
deriving DecidableEq

/-- A request issued to the report endpoint. -/
structure HttpRequest where
  url : String
  method : String
  authHeader : String
deriving DecidableEq

/-- Translation of WorkdayRequest.getWorkdayRes (src/unnamed/part_000 lines
46-59): run the auth callback, issue the GET with the bearer header, fail
with an InternalError embedding the body text when the status is not ok.
authResult is the outcome of the authRequest callback; net maps the issued
request to a thrown transport error (shown by its interpolation) or a
response.  The first component of the result lists the requests actually
issued to the report endpoint. -/
def getWorkdayRes (authResult : Except JsError String)
    (net : HttpRequest → Except String NetResponse) (endpoint : String) :
    List HttpRequest × Except JsError String :=
  match authResult with
  | .error e => ([], .error e)
  | .ok token =>
    let req : HttpRequest :=
      { url := endpoint, method := "GET", authHeader := "Bearer " ++ token }
    ([req],
      match net req with
      | .error shown => .error (.foreign shown)
      | .ok res =>
        if !res.ok then
          .error (.internalError
            ("An error occured during the request to Workday: " ++ res.text ++ "."))
        else .ok res.text)

/-- The catch handler of WorkdayRequest.json (src/unnamed/part_000 lines
104-109). -/
def jsonCatch (e : JsError) : JsError :=
  if isGeneratedError e then e
  else .internalError
    ("An error occured during the JSON request to Workday: " ++ e.display ++ ".")

/-- The catch handler of WorkdayRequest.xml (src/unnamed/part_000 lines
129-134). -/
def xmlCatch (e : JsError) : JsError :=
  if isGeneratedError e then e
  else .internalError
    ("An error occured during the XML request to Workday: " ++ e.display ++ ".")

/-- The catch handler of WorkdayRequest.csv (src/unnamed/part_000 lines
158-163); its message says XML in the source. -/
def csvCatch (e : JsError) : JsError :=
  if isGeneratedError e then e
  else .internalError
    ("An error occured during the XML request to Workday: " ++ e.display ++ ".")

/-- Everything observable about one terminal call: the requests issued to
the report endpoint, the returned body text or thrown error, and the builder
afterwards. -/
structure SendResult where
  requests : List HttpRequest
  response : Except JsError String
  state : WorkdayRequest
deriving DecidableEq

/-- Translation of WorkdayRequest.json (src/unnamed/part_000 lines 94-110):
append the format parameter, serialize the URL, delete the format parameter
again, then fetch inside the try and apply the catch handler. -/
def WorkdayRequest.json (r : WorkdayRequest) (authResult : Except JsError String)
    (net : HttpRequest → Except String NetResponse) : SendResult :=
  let withFormat := r.params ++ [("format", "json")]
  let endpoint := urlToString r.base withFormat
  let after : WorkdayRequest := { r with params := deleteParam withFormat "format" }
  let fetched := getWorkdayRes authResult net endpoint
  { requests := fetched.1,
    response :=
      match fetched.2 with
      | .ok t => .ok t
      | .error e => .error (jsonCatch e),
    state := after }

/-- Translation of WorkdayRequest.xml (src/unnamed/part_000 lines 123-135):
no format parameter is appended and the stored URL is left untouched. -/
def WorkdayRequest.xml (r : WorkdayRequest) (authResult : Except JsError String)
    (net : HttpRequest → Except String NetResponse) : SendResult :=
  let fetched := getWorkdayRes authResult net (urlToString r.base r.params)
  { requests := fetched.1,
    response :=
      match fetched.2 with
      | .ok t => .ok t
      | .error e => .error (xmlCatch e),
    state := r }

/-- Translation of WorkdayRequest.csv (src/unnamed/part_000 lines 148-164). -/
def WorkdayRequest.csv (r : WorkdayRequest) (authResult : Except JsError String)
    (net : HttpRequest → Except String NetResponse) : SendResult :=
  let withFormat := r.params ++ [("format", "csv")]
  let endpoint := urlToString r.base withFormat
  let after : WorkdayRequest := { r with params := deleteParam withFormat "format" }
  let fetched := getWorkdayRes authResult net endpoint
  { requests := fetched.1,
    response :=
      match fetched.2 with
      | .ok t => .ok t
      | .error e => .error (csvCatch e),
    state := after }

/-! The wdsdk-ts variant (src/wdsdk-ts/lib/client.ts). -/

/-- Outcome of res.json() in the wdsdk-ts getToken: a thrown parse error or
the access_token field of the parsed object (none when absent). -/
structure WdsdkAuthResponse where
  json : Except String (Option String)
deriving DecidableEq

/-- Translation of WorkdayClient.getToken (src/wdsdk-ts/lib/client.ts lines
46-71): the whole exchange sits in a try block whose catch returns the empty
string; the response status is never checked, and an absent access_token
field is returned as the JS undefined, modelled by none. -/
def WdsdkClient.getToken (fetchResult : Except String WdsdkAuthResponse) :
    Option String :=
  match fetchResult with
  | .error _ => some ""
  | .ok res =>
    match res.json with
    | .error _ => some ""
    | .ok accessToken => accessToken

/-! Definitions written from the words of the specification, for comparison
with the translated code. -/

/-- Replacement of a space character by an underscore. -/
def repSpace (c : Char) : Char := if c = ' ' then '_' else c

/-- The list-value formatting rule as the spec states it: each element is
trimmed and its internal spaces become underscores. -/
def specFormatElement (v : String) : String :=
  ⟨(jsTrim v).data.map repSpace⟩

/-- The list-value formatting rule as the spec states it: format each
element, then join the elements with an exclamation mark. -/
def specFormatList (vals : List String) : String :=
  joinWith "!" (vals.map specFormatElement)

/-! Concrete fixtures used to instantiate the theorems below. -/

/-- A concrete payload decoder for the jwt-decode model: three recognized
payload parts, expired, far in the future, and missing the exp claim. -/
def ppTest : String → Option JwtPayload
  | "EXP1" => some { exp := some 1 }
  | "FUT" => some { exp := some 99999999999 }
  | "NOEXP" => some { exp := none }
  | _ => none

/-- A report endpoint that always answers with a success response. -/
def netOK : HttpRequest → Except String NetResponse :=
  fun _ => .ok { ok := true, status := 200, text := "report-body" }

/-- A report endpoint that always answers 401 with body Error, the failing
response of the tests. -/
def net401 : HttpRequest → Except String NetResponse :=
  fun _ => .ok { ok := false, status := 401, text := "Error" }

/-! Helper lemmas. -/

theorem isTokenExpired_empty (pp : String → Option JwtPayload) (now : Int) :
    isTokenExpired pp now "" =
      .error (.internalError
        "The format of the token was invalid: Invalid token specified: missing part #2.") :=
  rfl

theorem isTokenExpired_ok_ne_empty {pp : String → Option JwtPayload} {now : Int}
    {t : String} {b : Bool} (h : isTokenExpired pp now t = .ok b) : t ≠ "" := by
  intro he
  subst he
  rw [isTokenExpired_empty] at h
  exact Except.noConfusion h

theorem auth_cached {pp : String → Option JwtPayload} {now : Int}
    {refresh : Except JsError String} {s : AuthState} {t : String}
    (ht : s.token = some t) (hexp : isTokenExpired pp now t = .ok false) :
    auth pp now refresh s = .ok (t, s) := by
  have tne : t ≠ "" := isTokenExpired_ok_ne_empty hexp
  simp [auth, ht, tne, hexp]

/-- C1: for every token whose decoded expiration claim is a past epoch time,
isTokenExpired returns true; for every token whose claim is sufficiently in
the future, it returns false; for every token missing the claim, it returns
true; for every structurally invalid token string, in particular the empty
string, the call fails with a decoding error of the internal error kind; and
the comparison is current time in milliseconds against the claim times
1000. -/
theorem isTokenExpired_correct (pp : String → Option JwtPayload) (now : Int)
    (t : String) :
    (∀ e : Int, jwtDecode pp t = .ok { exp := some e } →
      isTokenExpired pp now t = .ok (decide (e * 1000 ≤ now))) ∧
    (∀ e : Int, jwtDecode pp t = .ok { exp := some e } → e * 1000 ≤ now →
      isTokenExpired pp now t = .ok true) ∧
    (∀ e : Int, jwtDecode pp t = .ok { exp := some e } → now < e * 1000 →
      isTokenExpired pp now t = .ok false) ∧
    (jwtDecode pp t = .ok { exp := none } → isTokenExpired pp now t = .ok true) ∧
    (∀ msg, jwtDecode pp t = .error msg →
      isTokenExpired pp now t =
        .error (.internalError ("The format of the token was invalid: " ++ msg ++ "."))) ∧
    (∃ msg, isTokenExpired pp now "" = .error (.internalError msg)) := by
  refine ⟨?_, ?_, ?_, ?_, ?_, ?_⟩
  · intro e h
    simp [isTokenExpired, h]
  · intro e h hle
    simp [isTokenExpired, h, hle]
  · intro e h hlt
    have : ¬ e * 1000 ≤ now := not_le.mpr hlt
    simp [isTokenExpired, h, this]
  · intro h
    simp [isTokenExpired, h]
  · intro msg h
    simp [isTokenExpired, h]
  · exact ⟨_, isTokenExpired_empty pp now⟩

/-- Witness for C1 at concrete tokens: a token with an expired claim, one
with a far-future claim, one missing the claim, and the empty string. -/
theorem isTokenExpired_correct_witness :
    isTokenExpired ppTest 100000 "h.EXP1.s" = .ok true ∧
    isTokenExpired ppTest 100000 "h.FUT.s" = .ok false ∧
    isTokenExpired ppTest 100000 "h.NOEXP.s" = .ok true ∧
    (∃ msg, isTokenExpired ppTest 100000 "" = .error (.internalError msg)) :=
  ⟨(isTokenExpired_correct ppTest 100000 "h.EXP1.s").2.1 1 (by decide) (by decide),
   (isTokenExpired_correct ppTest 100000 "h.FUT.s").2.2.1 99999999999 (by decide)
     (by decide),
   (isTokenExpired_correct ppTest 100000 "h.NOEXP.s").2.2.2.1 (by decide),
   (isTokenExpired_correct ppTest 100000 "x").2.2.2.2.2⟩

/-- C2: auth returns the cached token, leaving the state untouched and
making no network call, whenever a cached token is present and not expired;
otherwise it calls refresh, stores the new token as the cache and returns
it; hence two successive auth calls with a still-valid cached token and no
time passing trigger at most one network call to the auth endpoint. -/
theorem auth_caching (pp : String → Option JwtPayload) (now : Int)
    (refresh : Except JsError String) (s : AuthState) :
    (∀ t, s.token = some t → isTokenExpired pp now t = .ok false →
      auth pp now refresh s = .ok (t, s)) ∧
    (∀ newTok, refresh = .ok newTok →
      (s.token = none ∨ ∃ t, s.token = some t ∧ isTokenExpired pp now t = .ok true) →
      auth pp now refresh s =
        .ok (newTok, { token := some newTok, authCalls := s.authCalls + 1 })) ∧
    (∀ t, s.token = some t → isTokenExpired pp now t = .ok false →
      ∃ s₂ : AuthState, auth pp now refresh s = .ok (t, s₂) ∧
        auth pp now refresh s₂ = .ok (t, s₂) ∧
        s₂.authCalls = s.authCalls ∧ s₂.authCalls ≤ s.authCalls + 1) := by
  refine ⟨?_, ?_, ?_⟩
  · intro t ht hexp
    exact auth_cached ht hexp
  · intro newTok hr hcase
    rcases hcase with hnone | ⟨t, ht, hexp⟩
    · simp [auth, hnone, authRefresh, hr]
    · have tne : t ≠ "" := isTokenExpired_ok_ne_empty hexp
      simp [auth, ht, tne, hexp, authRefresh, hr]
  · intro t ht hexp
    exact ⟨s, auth_cached ht hexp, auth_cached ht hexp, rfl, Nat.le_succ _⟩

/-- Witness for C2: a state caching a far-future token answers both calls
from the cache with zero refreshes, and a state with no cached token
refreshes once. -/
theorem auth_caching_witness :
    auth ppTest 100000 (.ok "newTok") { token := some "h.FUT.s", authCalls := 0 } =
      .ok ("h.FUT.s", { token := some "h.FUT.s", authCalls := 0 }) ∧
    auth ppTest 100000 (.ok "newTok") { token := none, authCalls := 0 } =
      .ok ("newTok", { token := some "newTok", authCalls := 1 }) ∧
    (∃ s₂ : AuthState,
      auth ppTest 100000 (.ok "newTok") { token := some "h.FUT.s", authCalls := 0 } =
        .ok ("h.FUT.s", s₂) ∧
      auth ppTest 100000 (.ok "newTok") s₂ = .ok ("h.FUT.s", s₂) ∧
      s₂.authCalls = 0 ∧ s₂.authCalls ≤ 1) :=
  ⟨(auth_caching ppTest 100000 (.ok "newTok")
      { token := some "h.FUT.s", authCalls := 0 }).1 "h.FUT.s" rfl (by decide),
   (auth_caching ppTest 100000 (.ok "newTok") { token := none, authCalls := 0 }).2.1
      "newTok" rfl (.inl rfl),
   (auth_caching ppTest 100000 (.ok "newTok")
      { token := some "h.FUT.s", authCalls := 0 }).2.2 "h.FUT.s" rfl (by decide)⟩

theorem data_append (a b : String) : (a ++ b).data = a.data ++ b.data := by
  cases a
  cases b
  rfl

theorem data_mk (l : List Char) : (⟨l⟩ : String).data = l := rfl

theorem splitCharAux_ne_nil (sep : Char) (l acc : List Char) :
    splitCharAux sep l acc ≠ [] := by
  induction l generalizing acc with
  | nil => simp [splitCharAux]
  | cons c cs ih =>
    by_cases h : c = sep
    · simp [splitCharAux, h]
    · simpa [splitCharAux, h] using ih (c :: acc)

theorem join_split_data (l acc : List Char) :
    (joinWith "_" ((splitCharAux ' ' l acc).map (fun cs => (⟨cs⟩ : String)))).data =
      acc.reverse ++ l.map repSpace := by
  induction l generalizing acc with
  | nil => simp [splitCharAux, joinWith, data_mk]
  | cons c cs ih =>
    by_cases h : c = ' '
    · subst h
      obtain ⟨y, ys, hys⟩ : ∃ y ys, splitCharAux ' ' cs [] = y :: ys := by
        cases hsp : splitCharAux ' ' cs [] with
        | nil => exact absurd hsp (splitCharAux_ne_nil _ _ _)
        | cons y ys => exact ⟨y, ys, rfl⟩
      have ihs := ih []
      rw [hys] at ihs
      simp only [List.map_cons] at ihs
      simp only [splitCharAux, if_pos, List.map_cons, hys, joinWith, data_append, data_mk]
      rw [ihs]
      simp [repSpace]
    · have ihs := ih (c :: acc)
      simp only [splitCharAux, if_neg h]
      rw [ihs]
      simp [repSpace, h]

theorem underscoreJoin_eq_spec (v : String) :
    joinWith "_" (jsSplit ' ' (jsTrim v)) = specFormatElement v := by
  apply String.ext
  have h := join_split_data (jsTrim v).data []
  simpa [jsSplit, specFormatElement] using h

/-- C3: for every list of strings passed as a parameter value, the formatted
value is obtained by trimming each element, turning each internal space into
an underscore, then joining the elements with an exclamation mark; the five
example inputs of the spec format as stated there; a single string value
passes through unmodified. -/
theorem formatQueryParams_spec :
    (∀ vals, formatQueryParams (.list vals) = specFormatList vals) ∧
    (∀ s, formatQueryParams (.str s) = s) ∧
    formatQueryParams (.list ["Test Lots Of Spaces"]) = "Test_Lots_Of_Spaces" ∧
    formatQueryParams (.list ["Test", "Multiple", "Params"]) = "Test!Multiple!Params" ∧
    formatQueryParams (.list ["Test Multiple", "With Spaces", "Params"]) =
      "Test_Multiple!With_Spaces!Params" ∧
    formatQueryParams (.list []) = "" ∧
    formatQueryParams (.list [""]) = "" := by
  refine ⟨?_, fun s => rfl, by decide, by decide, by decide, by decide, by decide⟩
  intro vals
  simp only [formatQueryParams, specFormatList, underscoreJoin_eq_spec]

/-- C4: each terminal method temporarily appends a format query parameter,
json for json and csv for csv while xml appends none, to the stored URL and
removes it again after serializing, leaving the accumulated custom
parameters intact in the builder; calling json on a request built from
https://example.com with no parameters issues a GET to
https://example.com/?format=json with the bearer header, and a subsequent
xml call on the resulting builder issues a GET to https://example.com/ with
no format parameter. -/
theorem format_param_lifecycle (r : WorkdayRequest)
    (authResult : Except JsError String)
    (net : HttpRequest → Except String NetResponse) :
    ((r.json authResult net).state = { r with params := deleteParam r.params "format" } ∧
      (r.json authResult net).requests =
        match authResult with
        | .ok tok => [HttpRequest.mk (urlToString r.base (r.params ++ [("format", "json")]))
            "GET" ("Bearer " ++ tok)]
        | .error _ => []) ∧
    ((r.csv authResult net).state = { r with params := deleteParam r.params "format" } ∧
      (r.csv authResult net).requests =
        match authResult with
        | .ok tok => [HttpRequest.mk (urlToString r.base (r.params ++ [("format", "csv")]))
            "GET" ("Bearer " ++ tok)]
        | .error _ => []) ∧
    ((r.xml authResult net).state = r ∧
      (r.xml authResult net).requests =
        match authResult with
        | .ok tok => [HttpRequest.mk (urlToString r.base r.params)
            "GET" ("Bearer " ++ tok)]
        | .error _ => []) ∧
    (WorkdayRequest.create "https://example.com" =
      .ok { base := "https://example.com/", params := [] } ∧
      (({ base := "https://example.com/", params := [] } : WorkdayRequest).json
          (.ok "tok") netOK).requests =
        [{ url := "https://example.com/?format=json", method := "GET",
           authHeader := "Bearer tok" }] ∧
      ((({ base := "https://example.com/", params := [] } : WorkdayRequest).json
          (.ok "tok") netOK).state.xml (.ok "tok") netOK).requests =
        [{ url := "https://example.com/", method := "GET",
           authHeader := "Bearer tok" }]) := by
  refine ⟨⟨?_, ?_⟩, ⟨?_, ?_⟩, ⟨rfl, ?_⟩, by decide, by decide, by decide⟩
  · simp [WorkdayRequest.json, deleteParam, List.filter_append]
  · cases authResult <;> simp [WorkdayRequest.json, getWorkdayRes]
  · simp [WorkdayRequest.csv, deleteParam, List.filter_append]
  · cases authResult <;> simp [WorkdayRequest.csv, getWorkdayRes]
  · cases authResult <;> simp [WorkdayRequest.xml, getWorkdayRes]

/-- C5: chaining param myKey myVal and then param multi with the list
multiple-space, values, multiple-values, and then calling json, produces
exactly the query string
myKey=myVal&multi=multiple%21values%21multiple_values&format=json, with the
parameters in insertion order, the list value joined with an exclamation
mark that is percent-encoded as %21, and the format parameter last. -/
theorem param_chain_query :
    WorkdayRequest.create "https://example.com" =
      .ok { base := "https://example.com/", params := [] } ∧
    serializeParams
        (((({ base := "https://example.com/", params := [] } : WorkdayRequest).param
              "myKey" (.str "myVal")).param "multi"
              (.list ["multiple ", "values", "multiple values"])).params ++
          [("format", "json")]) =
      "myKey=myVal&multi=multiple%21values%21multiple_values&format=json" ∧
    (((({ base := "https://example.com/", params := [] } : WorkdayRequest).param
          "myKey" (.str "myVal")).param "multi"
          (.list ["multiple ", "values", "multiple values"])).json (.ok "tok")
        netOK).requests =
      [{ url := "https://example.com/?myKey=myVal&multi=multiple%21values%21multiple_values&format=json",
         method := "GET", authHeader := "Bearer tok" }] := by
  exact ⟨by decide, by decide, by decide⟩

/-- C7: for every request builder and every non-success response from the
report endpoint with body text b, each of json, xml and csv fails with an
InternalError whose message embeds b. -/
theorem report_error_propagation (r : WorkdayRequest) (tok b : String)
    (status : Nat) :
    (r.json (.ok tok) (fun _ => .ok { ok := false, status := status, text := b })).response =
      .error (.internalError
        ("An error occured during the request to Workday: " ++ b ++ ".")) ∧
    (r.xml (.ok tok) (fun _ => .ok { ok := false, status := status, text := b })).response =
      .error (.internalError
        ("An error occured during the request to Workday: " ++ b ++ ".")) ∧
    (r.csv (.ok tok) (fun _ => .ok { ok := false, status := status, text := b })).response =
      .error (.internalError
        ("An error occured during the request to Workday: " ++ b ++ ".")) := by
  refine ⟨?_, ?_, ?_⟩
  · simp [WorkdayRequest.json, getWorkdayRes, jsonCatch, isGeneratedError]
  · simp [WorkdayRequest.xml, getWorkdayRes, xmlCatch, isGeneratedError]
  · simp [WorkdayRequest.csv, getWorkdayRes, csvCatch, isGeneratedError]

/-- C9: in the wdsdk-ts variant, getToken returns the empty string, raising
no error, on every failing execution of the exchange: a thrown transport
error and a thrown body-parsing error both land in the catch that returns
the empty string. -/
theorem wdsdk_getToken_swallows (shownFetch shownParse : String) :
    WdsdkClient.getToken (.error shownFetch) = some "" ∧
    WdsdkClient.getToken (.ok { json := .error shownParse }) = some "" :=
  ⟨rfl, rfl⟩

/-- C6 counterexample: a success response whose JSON body carries an
access_token field holding the empty string has the field, so the claim says
getToken returns that string; the code instead fails with the protocol
error, because the JS falsiness guard also fires on the empty string. -/
theorem getToken_empty_token_counterexample :
    getToken (.ok { ok := true, text := "irrelevant", json := .ok (some "") }) =
      .error (.internalError
        "An unexpected response was received from Workday.  access_token was not included") ∧
    getToken (.ok { ok := true, text := "irrelevant", json := .ok (some "") }) ≠
      .ok "" :=
  ⟨rfl, by decide⟩

/-- C6 (amended): getToken fails with the upstream-auth InternalError, body
text embedded in the message, on every non-success status; on a success
status whose JSON body lacks an access_token field or carries an empty one,
it fails with the protocol InternalError; otherwise it returns the
access_token string. -/
theorem getToken_spec (res : AuthResponse) :
    (res.ok = false →
      getToken (.ok res) = .error (.internalError
        ("An error occured during the auth request to Workday: " ++ res.text ++ "."))) ∧
    (res.ok = true → res.json = .ok none →
      getToken (.ok res) = .error (.internalError
        "An unexpected response was received from Workday.  access_token was not included")) ∧
    (res.ok = true → res.json = .ok (some "") →
      getToken (.ok res) = .error (.internalError
        "An unexpected response was received from Workday.  access_token was not included")) ∧
    (∀ tok, res.ok = true → res.json = .ok (some tok) → tok ≠ "" →
      getToken (.ok res) = .ok tok) := by
  refine ⟨?_, ?_, ?_, ?_⟩
  · intro hok
    simp [getToken, getTokenTry, authCatch, isGeneratedError, hok]
  · intro hok hjs
    simp [getToken, getTokenTry, authCatch, isGeneratedError, hok, hjs]
  · intro hok hjs
    simp [getToken, getTokenTry, authCatch, isGeneratedError, hok, hjs]
  · intro tok hok hjs hne
    simp [getToken, getTokenTry, authCatch, isGeneratedError, hok, hjs, hne]

/-- Witness for C6 as amended, at one concrete response per case. -/
theorem getToken_spec_witness :
    getToken (.ok { ok := false, text := "denied", json := .ok none }) =
      .error (.internalError
        ("An error occured during the auth request to Workday: " ++ "denied" ++ ".")) ∧
    getToken (.ok { ok := true, text := "t", json := .ok none }) =
      .error (.internalError
        "An unexpected response was received from Workday.  access_token was not included") ∧
    getToken (.ok { ok := true, text := "t", json := .ok (some "tok123") }) =
      .ok "tok123" :=
  ⟨(getToken_spec { ok := false, text := "denied", json := .ok none }).1 rfl,
   (getToken_spec { ok := true, text := "t", json := .ok none }).2.1 rfl rfl,
   (getToken_spec { ok := true, text := "t", json := .ok (some "tok123") }).2.2.2
     "tok123" rfl rfl (by decide)⟩

/-- C8: an error thrown during the auth exchange or a report fetch surfaces
to the caller unchanged when it is already an InternalError, and otherwise
is re-wrapped into an InternalError whose message interpolates it: this
holds at the json, xml and csv boundaries for an error thrown by the auth
callback, at the auth boundary for any error escaping the getToken try
block, and a thrown transport error of the report fetch is wrapped with the
interpolated message. -/
theorem error_wrapping (e : JsError) (r : WorkdayRequest)
    (net : HttpRequest → Except String NetResponse) (tok shown : String)
    (fetchResult : Except String AuthResponse) :
    (isGeneratedError e = true →
      (r.json (.error e) net).response = .error e ∧
      (r.xml (.error e) net).response = .error e ∧
      (r.csv (.error e) net).response = .error e ∧
      (getTokenTry fetchResult = .error e → getToken fetchResult = .error e)) ∧
    (isGeneratedError e = false →
      (r.json (.error e) net).response = .error (.internalError
        ("An error occured during the JSON request to Workday: " ++ e.display ++ ".")) ∧
      (r.xml (.error e) net).response = .error (.internalError
        ("An error occured during the XML request to Workday: " ++ e.display ++ ".")) ∧
      (r.csv (.error e) net).response = .error (.internalError
        ("An error occured during the XML request to Workday: " ++ e.display ++ ".")) ∧
      (getTokenTry fetchResult = .error e → getToken fetchResult = .error (.internalError
        ("An error occured during the auth request to Workday: " ++ e.display ++ ".")))) ∧
    (r.json (.ok tok) (fun _ => .error shown)).response = .error (.internalError
      ("An error occured during the JSON request to Workday: " ++ shown ++ ".")) := by
  refine ⟨?_, ?_, ?_⟩
  · intro hgen
    refine ⟨?_, ?_, ?_, ?_⟩
    · simp [WorkdayRequest.json, getWorkdayRes, jsonCatch, hgen]
    · simp [WorkdayRequest.xml, getWorkdayRes, xmlCatch, hgen]
    · simp [WorkdayRequest.csv, getWorkdayRes, csvCatch, hgen]
    · intro htry
      simp [getToken, htry, authCatch, hgen]
  · intro hgen
    refine ⟨?_, ?_, ?_, ?_⟩
    · simp [WorkdayRequest.json, getWorkdayRes, jsonCatch, hgen]
    · simp [WorkdayRequest.xml, getWorkdayRes, xmlCatch, hgen]
    · simp [WorkdayRequest.csv, getWorkdayRes, csvCatch, hgen]
    · intro htry
      simp [getToken, htry, authCatch, hgen]
  · simp [WorkdayRequest.json, getWorkdayRes, jsonCatch, isGeneratedError, JsError.display]

/-- Witness for C8: one already-internal error passes each boundary
unchanged, and one foreign error is wrapped with the interpolated message. -/
theorem error_wrapping_witness :
    (({ base := "https://example.com/", params := [] } : WorkdayRequest).json
        (.error (.internalError "boom")) netOK).response =
      .error (.internalError "boom") ∧
    (({ base := "https://example.com/", params := [] } : WorkdayRequest).json
        (.error (.foreign "TypeError: failed")) netOK).response =
      .error (.internalError
        ("An error occured during the JSON request to Workday: " ++
          JsError.display (.foreign "TypeError: failed") ++ ".")) ∧
    getToken (.error "SyntaxError: bad json") = .error (.internalError
      ("An error occured during the auth request to Workday: " ++
        JsError.display (.foreign "SyntaxError: bad json") ++ ".")) :=
  ⟨((error_wrapping (.internalError "boom")
      { base := "https://example.com/", params := [] } netOK "tok" "s"
      (.error "x")).1 rfl).1,
   ((error_wrapping (.foreign "TypeError: failed")
      { base := "https://example.com/", params := [] } netOK "tok" "s"
      (.error "x")).2.1 rfl).1,
   ((error_wrapping (.foreign "SyntaxError: bad json")
      { base := "https://example.com/", params := [] } netOK "tok" "s"
      (.error "SyntaxError: bad json")).2.1 rfl).2.2.2 rfl⟩

/-- C10 counterexample: a builder whose stored multimap already contains a
format entry: a failing json call removes that entry, so the builder state
after the failed call differs from its state before the call. -/
theorem builder_state_change_counterexample :
    (({ base := "https://example.com/", params := [("format", "xml")] } : WorkdayRequest).json
        (.ok "tok") net401).response =
      .error (.internalError "An error occured during the request to Workday: Error.") ∧
    (({ base := "https://example.com/", params := [("format", "xml")] } : WorkdayRequest).json
        (.ok "tok") net401).state ≠
      { base := "https://example.com/", params := [("format", "xml")] } :=
  ⟨rfl, by decide⟩

/-- C10 (amended): json and csv remove the temporary format parameter from
the stored URL before performing the network fetch, so whenever the stored
multimap holds no format key, the builder state after the call, in every
execution and in particular every failing one, equals its state before the
call. -/
theorem builder_state_on_failure (r : WorkdayRequest)
    (authResult : Except JsError String)
    (net : HttpRequest → Except String NetResponse)
    (hfmt : ∀ p ∈ r.params, p.1 ≠ "format") :
    (r.json authResult net).state = r ∧ (r.csv authResult net).state = r := by
  have h1 : List.filter (fun p => !decide (p.1 = "format")) r.params = r.params := by
    rw [List.filter_eq_self]
    intro p hp
    simpa using hfmt p hp
  constructor
  · simp [WorkdayRequest.json, deleteParam, List.filter_append, h1]
  · simp [WorkdayRequest.csv, deleteParam, List.filter_append, h1]

/-- Witness for C10 as amended: a builder holding one custom parameter is
unchanged by a json call and by a csv call that both fail with status
401. -/
theorem builder_state_on_failure_witness :
    (({ base := "https://example.com/", params := [("myKey", "myVal")] } : WorkdayRequest).json
        (.ok "tok") net401).state =
      { base := "https://example.com/", params := [("myKey", "myVal")] } ∧
    (({ base := "https://example.com/", params := [("myKey", "myVal")] } : WorkdayRequest).csv
        (.ok "tok") net401).state =
      { base := "https://example.com/", params := [("myKey", "myVal")] } :=
  builder_state_on_failure { base := "https://example.com/", params := [("myKey", "myVal")] }
    (.ok "tok") net401 (by decide)

end Workday
